import Mathlib

/-!
Verification of the go-sage/synctools concurrency toolkit: a shallow
embedding of the `waypoint` package (a capacity-bounded admission gate
with resizable capacity and cancelable waits) and of the lock/stage
bookkeeping of the `pipeline` package, with theorems about admission
invariants, worker-id issuance, resize semantics, shutdown signalling,
the typed channel receive helper, and the error paths of the pipeline.

The Go monitor (a single mutex guarding all counters, plus a condition
variable) serialises every state change, so the embedding is a state
machine whose atomic steps are the lock-protected critical sections of
`waypoint.go` / `worker.go`, and plain state-passing functions for the
sequential pipeline code.
-/

/-- Worker lifecycle states, worker.go lines 16 to 32. -/
inductive WorkerState
  | Waiting
  | Active
  | Finished
  deriving DecidableEq, Repr

/-- Model of a Worker handle, worker.go lines 41 to 52. The three
timestamps carried by the Go struct exist only to produce the durations
accumulated into the owning Waypoint; the model supplies those elapsed
durations directly at the call sites that would read the clock. -/
structure Worker where
  ID : Nat
  state : WorkerState
  deriving DecidableEq, Repr

/-- Modulus of Go's uint64, the type of the Waypoint id sequence. -/
def UINT64_MOD : Nat := 2 ^ 64

/-- Model of the Waypoint state, waypoint.go lines 110 to 126.

`idSeq` is the uint64 id counter (incremented mod 2^64); `active` is the
key set of the `active` map; `waiting` is bookkeeping for the goroutines
currently blocked in `cond.Wait` inside `Wait` (implicit in Go, each one
already holds the id handed to it by `_next`); `closed` is the closed
flag; `doneChanClosed` records whether `close(w.done)` has executed and
`onceUsed` whether the `sync.Once` has fired; `closeNum` and `signalNum`
count executions of `close(w.done)` and of `cond.Signal`; `activeTime`
accumulates worker active durations as abstract ticks (`waitTime`
accumulation in `_start` is not modelled, no property here reads it);
`issued` is the chronological log of ids handed out by `_next`. -/
structure Waypoint where
  idSeq : Nat
  capacity : Int
  numWaiting : Nat
  numFinished : Nat
  active : Finset Nat
  waiting : Finset Nat
  closed : Bool
  doneChanClosed : Bool
  onceUsed : Bool
  closeNum : Nat
  signalNum : Nat
  activeTime : Nat
  issued : List Nat
  deriving DecidableEq

/-- Model of waypoint.New, waypoint.go lines 134 to 144. -/
def Waypoint.new (capacity : Int) : Waypoint :=
  { idSeq := 0, capacity := capacity, numWaiting := 0, numFinished := 0,
    active := ∅, waiting := ∅, closed := false, doneChanClosed := false,
    onceUsed := false, closeNum := 0, signalNum := 0,
    activeTime := 0, issued := [] }

/-- Model of the method `_next`, worker.go lines 62 to 71: increment the
uint64 `idSeq` and return a Waiting Worker carrying the new id. The ghost
log `issued` records the id. -/
def Waypoint.nextWorker (w : Waypoint) : Waypoint × Worker :=
  let newSeq := (w.idSeq + 1) % UINT64_MOD
  ({ w with idSeq := newSeq, issued := w.issued ++ [newSeq] },
   { ID := newSeq, state := .Waiting })

/-- Model of the method `_stop`, waypoint.go lines 263 to 269: when the
Waypoint is closed, run `close(w.done)` under the `sync.Once`. -/
def Waypoint.stop (w : Waypoint) : Waypoint :=
  if w.closed then
    if w.onceUsed then w
    else { w with onceUsed := true, doneChanClosed := true,
                  closeNum := w.closeNum + 1 }
  else w

/-- Model of the method `_removeWorker`, waypoint.go lines 253 to 261:
delete the id from the active map if present, then call `_stop` when the
active map has become empty. -/
def Waypoint.removeWorker (w : Waypoint) (id : Nat) : Waypoint :=
  let w1 := if id ∈ w.active then { w with active := w.active.erase id } else w
  if w1.active.card = 0 then w1.stop else w1

/-- Model of the method Resize, waypoint.go lines 217 to 232, for a
non-nil receiver: returns -1 when `newcap < 0` or the Waypoint is
closed, otherwise installs the new capacity and returns the previous
one. The `cond.Broadcast` issued on growth wakes blocked waiters; in the
step system below a wake step is always available when its guard holds,
so the broadcast itself needs no state. -/
def Waypoint.Resize (w : Waypoint) (newcap : Int) : Waypoint × Int :=
  if newcap < 0 ∨ w.closed then (w, -1)
  else ({ w with capacity := newcap }, w.capacity)

/-- Model of the method Done on Waypoint, waypoint.go lines 243 to 251:
set the closed flag, call `_stop`, return the done channel. -/
def Waypoint.Done (w : Waypoint) : Waypoint :=
  ({ w with closed := true }).stop

/-- Model of the effect of the method Done on Worker, worker.go lines 89
to 108, on the owning Waypoint: `numFinished++`, accumulate the active
duration (`elapsed` stands for `finished.Sub(started)`), `cond.Signal`,
then `_removeWorker`. Nothing in the Go method inspects the worker's
current state, so nothing guards a repeated call. -/
def Waypoint.finishWorker (w : Waypoint) (id : Nat) (elapsed : Nat) : Waypoint :=
  ({ w with numFinished := w.numFinished + 1,
            activeTime := w.activeTime + elapsed,
            signalNum := w.signalNum + 1 }).removeWorker id

/-- Model of the full effect of the method Done on Worker: the handle
moves to Finished and the Waypoint bookkeeping of `finishWorker` runs. -/
def Worker.Done (wk : Worker) (w : Waypoint) (elapsed : Nat) : Worker × Waypoint :=
  ({ wk with state := .Finished }, w.finishWorker wk.ID elapsed)

/-- Outcome of the entry of Wait: admitted at once, or blocked holding
the freshly issued id. -/
inductive WaitEntry
  | admitted (wk : Worker)
  | blocked (id : Nat)
  deriving DecidableEq, Repr

/-- Model of the entry of the method Wait, waypoint.go lines 171 to 198,
up to the first evaluation of the for-loop guard: `numWaiting++`, then
`_next`, then either `_start` (insert into the active map, state becomes
Active, the deferred `numWaiting--` runs at return) when
`len(active) < capacity`, or blocking in `cond.Wait`. The context is not
consulted on this path: the only `ctx.Done()` check sits inside the loop
body, lines 189 to 194. -/
def Waypoint.waitEnter (w : Waypoint) : Waypoint × WaitEntry :=
  let w1 := { w with numWaiting := w.numWaiting + 1 }
  let p := w1.nextWorker
  if (p.1.active.card : Int) ≥ p.1.capacity then
    ({ p.1 with waiting := insert p.2.ID p.1.waiting }, .blocked p.2.ID)
  else
    ({ p.1 with active := insert p.2.ID p.1.active,
                numWaiting := p.1.numWaiting - 1 },
     .admitted { p.2 with state := .Active })

/-- Model of the Go error values observable from these packages:
`ctx.Err()` of a canceled context, and the `errstr` constants of
pipeline/errors.go. -/
inductive GoError
  | ctxCanceled
  | err (msg : String)
  deriving DecidableEq, Repr

/-- Model of a whole call of the method Wait in the case the entry guard
admits immediately (the for loop of waypoint.go lines 179 to 195 never
runs). `ctxCanceled` records whether the supplied context is already
canceled at entry; this path never consults it, which is exactly what
the fast path of the Go code does. The result `none` means the call
blocks instead (its outcome then depends on later steps). -/
def Waypoint.WaitFast (w : Waypoint) (ctxCanceled : Bool) :
    Option (Waypoint × Worker × Option GoError) :=
  match w.waitEnter with
  | (w1, .admitted wk) => some (w1, wk, none)
  | (_, .blocked _) => none

/-- Labels of the atomic (lock-protected) transitions of the Waypoint
monitor. `waitAdmit` and `waitBlock` are the two outcomes of Wait entry;
`wakeAdmit` is a blocked waiter waking (after Signal or Broadcast) and
passing the admission guard; `wakeCancel` is a blocked waiter waking
after its context was canceled, returning through waypoint.go lines 189
to 191; `finish` is the method Done of an Active worker's handle;
`resize` and `close` are the methods Resize and Done of the Waypoint. -/
inductive Label
  | waitAdmit
  | waitBlock
  | wakeAdmit (id : Nat)
  | wakeCancel (id : Nat)
  | finish (id : Nat) (elapsed : Nat)
  | resize (newcap : Int)
  | close
  deriving DecidableEq, Repr

/-- One atomic transition of the Waypoint monitor; `none` means the
guard of the label does not hold in this state. -/
def Waypoint.stepFn (w : Waypoint) : Label → Option Waypoint
  | .waitAdmit =>
    match w.waitEnter with
    | (w1, .admitted _) => some w1
    | (_, .blocked _) => none
  | .waitBlock =>
    match w.waitEnter with
    | (_, .admitted _) => none
    | (w1, .blocked _) => some w1
  | .wakeAdmit id =>
    if id ∈ w.waiting ∧ (w.active.card : Int) < w.capacity then
      some { w with waiting := w.waiting.erase id,
                    active := insert id w.active,
                    numWaiting := w.numWaiting - 1 }
    else none
  | .wakeCancel id =>
    if id ∈ w.waiting then
      some { w with waiting := w.waiting.erase id,
                    numWaiting := w.numWaiting - 1 }
    else none
  | .finish id elapsed =>
    if id ∈ w.active then some (w.finishWorker id elapsed) else none
  | .resize newcap => some (w.Resize newcap).1
  | .close => some w.Done

/-- Run a list of transition labels from a state; `none` when some guard
fails along the way. -/
def Waypoint.runTrace (w : Waypoint) : List Label → Option Waypoint
  | [] => some w
  | l :: ls =>
    match w.stepFn l with
    | none => none
    | some w1 => w1.runTrace ls

/-- Model of a call of the method Wait that blocks at entry and is then
woken by the cancellation broadcast of the watcher goroutine: the
`ctx.Done()` branch at waypoint.go lines 189 to 191 returns
`(nil, ctx.Err())` and the deferred `numWaiting--` runs. -/
def Waypoint.waitCanceled (w : Waypoint) :
    Option (Waypoint × Option Worker × GoError) :=
  match w.waitEnter with
  | (w1, .blocked id) =>
    match w1.stepFn (.wakeCancel id) with
    | some w2 => some (w2, none, .ctxCanceled)
    | none => none
  | (_, .admitted _) => none

/-- Checks that every effective resize in a trace keeps the new capacity
at or above the active count at that moment (ineffective resizes, with a
negative argument or on a closed Waypoint, change nothing). -/
def Waypoint.resizeSafe (w : Waypoint) : List Label → Bool
  | [] => true
  | l :: ls =>
    (match l with
     | .resize n => decide (n < 0) || w.closed || decide ((w.active.card : Int) ≤ n)
     | _ => true) &&
    (match w.stepFn l with
     | none => true
     | some w1 => w1.resizeSafe ls)

/-- Model of the `errstr` error constants, pipeline/errors.go lines 11
to 18. -/
def ErrCorrupted : GoError := .err ("pipeline state is corrupted")

/-- Model of ErrIsStarted, pipeline/errors.go. -/
def ErrIsStarted : GoError := .err ("pipeline is already started")

/-- Model of ErrNameConflict, pipeline/errors.go. -/
def ErrNameConflict : GoError := .err ("stage name conflict")

/-- Model of ErrNameUnknown, pipeline/errors.go. -/
def ErrNameUnknown : GoError := .err ("stage name not found")

/-- Model of ErrNilReceiver, pipeline/errors.go. -/
def ErrNilReceiver : GoError := .err ("nil receiver")

/-- Model of ErrNoStages, pipeline/errors.go. -/
def ErrNoStages : GoError := .err ("no pipeline stages registered")

/-- Model of the dynamic values travelling over the untyped `chan any`
of the pipeline, enough to exhibit both a successful and a failing type
assertion. -/
inductive Dyn
  | int (n : Int)
  | str (s : String)
  deriving DecidableEq, Repr

/-- The type assertion `val.(Int)` on a dynamic value. -/
def dynToInt : Dyn → Option Int
  | .int n => some n
  | _ => none

/-- The event observed by the select statement of Recv: the context is
canceled before a value arrives, or the channel is closed and drained,
or a value arrives. -/
inductive RecvEvent
  | canceled
  | chanClosed
  | value (v : Dyn)
  deriving DecidableEq, Repr

/-- Model of the generic function Recv, pipeline/channels.go lines 18 to
42. `cast` is the type assertion `val.(T)` and `zeroVal` is `var out T`;
in Go the two-result assignment form of the assertion leaves `out` at
the zero value when the assertion fails, and the function then falls
through to `return out, true, nil`. -/
def Recv (cast : Dyn → Option α) (zeroVal : α) :
    RecvEvent → α × Bool × Option GoError
  | .canceled => (zeroVal, false, some .ctxCanceled)
  | .chanClosed => (zeroVal, false, none)
  | .value v =>
    match cast v with
    | some out => (out, true, none)
    | none => (zeroVal, true, none)

/-- Model of a `sync.Mutex`. -/
structure GoMutex where
  locked : Bool
  deriving DecidableEq, Repr

/-- Acquiring the mutex; the sequential callers modelled here never
contend, so acquisition always succeeds. -/
def GoMutex.lock (_ : GoMutex) : GoMutex := { locked := true }

/-- Releasing the mutex: `none` models the unrecoverable Go run-time
error thrown by unlocking a mutex that is not locked. -/
def GoMutex.unlock (m : GoMutex) : Option GoMutex :=
  if m.locked then some { locked := false } else none

/-- Model of a registered pipeline stage, pipeline/stage.go lines 12 to
17: its name, its initial capacity, and the Waypoint pointer `waypt`,
which is nil (`none`) until the stage's runner goroutine executes
`s.waypt = waypoint.New(s.capacity)`. The stage function itself plays no
role in the properties below. -/
structure PStage where
  name : String
  capacity : Int
  waypt : Option Waypoint
  deriving DecidableEq

/-- Model of the Pipeline state, pipeline/pipeline.go lines 17 to 25:
the registered stages in order, the name-to-index map `byname`, the
number of extra context funcs registered through GoContext (their bodies
are irrelevant here), and the `started` latch. -/
structure Pipeline where
  stages : List PStage
  byname : List (String × Nat)
  funcs : Nat
  started : Bool
  deriving DecidableEq

/-- Lookup in the `byname` map. -/
def lookupIdx : List (String × Nat) → String → Option Nat
  | [], _ => none
  | (k, v) :: rest, name => if k = name then some v else lookupIdx rest name

/-- Outcome of the method run of Pipeline: an unrecoverable Go run-time
error, or the errgroup returned after spawning `tasks` goroutines, or an
early `(nil, err)` return. -/
inductive RunOutcome
  | fatal (msg : String)
  | group (tasks : Nat)
  | errReturn (e : GoError)
  deriving DecidableEq, Repr

/-- Model of the method run, pipeline/run.go lines 42 to 76, restricted
to its lock discipline, the no-stages check, the `started` latch and the
number of goroutines it spawns (one per GoContext func, one feeder, one
per stage, one collector). The method does `p.Lock()` then
`defer p.Unlock()`; in the no-stages branch it also runs an explicit
`p.Unlock()` before `return nil, ErrNoStages`, after which the deferred
`p.Unlock()` still executes; both unlocks are modelled. -/
def Pipeline.runSetup (p : Pipeline) (m : GoMutex) :
    Pipeline × GoMutex × RunOutcome :=
  let m := m.lock
  if p.stages.length = 0 then
    match m.unlock with
    | none => (p, m, .fatal ("sync: unlock of unlocked mutex"))
    | some m1 =>
      match m1.unlock with
      | none => (p, m1, .fatal ("sync: unlock of unlocked mutex"))
      | some m2 => (p, m2, .errReturn ErrNoStages)
  else
    let p1 := { p with started := true }
    let tasks := p1.funcs + 1 + p1.stages.length + 1
    match m.unlock with
    | none => (p1, m, .fatal ("sync: unlock of unlocked mutex"))
    | some m1 => (p1, m1, .group tasks)

/-- Model of the method Resize of Pipeline, pipeline/pipeline.go lines
107 to 126, for a non-nil receiver (the receiver lock is immaterial in
this sequential model): look the name up in `byname`, range-check the
index (the `ndx < 0` half of the Go check cannot fire for a Nat index),
and forward to the Resize of the stage's Waypoint pointer. A nil
pointer, `none`, is exactly the nil receiver on which waypoint's Resize
returns -1, waypoint.go lines 217 to 219. -/
def Pipeline.ResizeStage (p : Pipeline) (name : String) (newcap : Int) :
    Pipeline × Int × Option GoError :=
  match lookupIdx p.byname name with
  | none => (p, 0, some ErrNameUnknown)
  | some ndx =>
    match p.stages[ndx]? with
    | none => (p, 0, some ErrCorrupted)
    | some st =>
      match st.waypt with
      | none => (p, -1, none)
      | some wp =>
        let res := wp.Resize newcap
        ({ p with stages := p.stages.set ndx { st with waypt := some res.1 } },
         res.2, none)

/-- A concrete pipeline holding one registered stage whose runner has
not executed yet: exactly the state after `New` and one successful
`Add("s1", 5, fn)`, before Run. -/
def pipelineBeforeRun : Pipeline :=
  { stages := [{ name := "s1", capacity := 5, waypt := none }],
    byname := [("s1", 0)], funcs := 0, started := false }

/-- A concrete pipeline with no registered stages: the state right after
`New`. -/
def pipelineNoStages : Pipeline :=
  { stages := [], byname := [], funcs := 0, started := false }

/-- Invariant tying the id log to the id counter: the ids issued so far
are exactly 1, 2, ..., k in order, and `idSeq` stands at k. It holds in
the initial state and is preserved as long as the counter has not
wrapped around 2^64. -/
def Waypoint.IdInv (w : Waypoint) : Prop :=
  w.issued = List.range' 1 w.issued.length ∧ w.idSeq = w.issued.length

/- ------------------------------------------------------------------ -/
/- Helper lemmas about the embedded operations.                        -/
/- ------------------------------------------------------------------ -/

theorem Waypoint.stop_active (w : Waypoint) : w.stop.active = w.active := by
  by_cases h1 : w.closed <;> by_cases h2 : w.onceUsed <;>
    simp [Waypoint.stop, h1, h2]

theorem Waypoint.stop_capacity (w : Waypoint) : w.stop.capacity = w.capacity := by
  by_cases h1 : w.closed <;> by_cases h2 : w.onceUsed <;>
    simp [Waypoint.stop, h1, h2]

theorem Waypoint.stop_idSeq (w : Waypoint) : w.stop.idSeq = w.idSeq := by
  by_cases h1 : w.closed <;> by_cases h2 : w.onceUsed <;>
    simp [Waypoint.stop, h1, h2]

theorem Waypoint.stop_issued (w : Waypoint) : w.stop.issued = w.issued := by
  by_cases h1 : w.closed <;> by_cases h2 : w.onceUsed <;>
    simp [Waypoint.stop, h1, h2]

theorem Waypoint.stop_numFinished (w : Waypoint) :
    w.stop.numFinished = w.numFinished := by
  by_cases h1 : w.closed <;> by_cases h2 : w.onceUsed <;>
    simp [Waypoint.stop, h1, h2]

theorem Waypoint.stop_activeTime (w : Waypoint) :
    w.stop.activeTime = w.activeTime := by
  by_cases h1 : w.closed <;> by_cases h2 : w.onceUsed <;>
    simp [Waypoint.stop, h1, h2]

theorem Waypoint.stop_signalNum (w : Waypoint) :
    w.stop.signalNum = w.signalNum := by
  by_cases h1 : w.closed <;> by_cases h2 : w.onceUsed <;>
    simp [Waypoint.stop, h1, h2]

theorem Waypoint.removeWorker_capacity (w : Waypoint) (id : Nat) :
    (w.removeWorker id).capacity = w.capacity := by
  simp only [Waypoint.removeWorker]
  by_cases h : id ∈ w.active <;>
    simp only [h, if_true, if_false] <;> split <;>
    simp [Waypoint.stop_capacity]

theorem Waypoint.removeWorker_idSeq (w : Waypoint) (id : Nat) :
    (w.removeWorker id).idSeq = w.idSeq := by
  simp only [Waypoint.removeWorker]
  by_cases h : id ∈ w.active <;>
    simp only [h, if_true, if_false] <;> split <;>
    simp [Waypoint.stop_idSeq]

theorem Waypoint.removeWorker_issued (w : Waypoint) (id : Nat) :
    (w.removeWorker id).issued = w.issued := by
  simp only [Waypoint.removeWorker]
  by_cases h : id ∈ w.active <;>
    simp only [h, if_true, if_false] <;> split <;>
    simp [Waypoint.stop_issued]

theorem Waypoint.removeWorker_numFinished (w : Waypoint) (id : Nat) :
    (w.removeWorker id).numFinished = w.numFinished := by
  simp only [Waypoint.removeWorker]
  by_cases h : id ∈ w.active <;>
    simp only [h, if_true, if_false] <;> split <;>
    simp [Waypoint.stop_numFinished]

theorem Waypoint.removeWorker_activeTime (w : Waypoint) (id : Nat) :
    (w.removeWorker id).activeTime = w.activeTime := by
  simp only [Waypoint.removeWorker]
  by_cases h : id ∈ w.active <;>
    simp only [h, if_true, if_false] <;> split <;>
    simp [Waypoint.stop_activeTime]

theorem Waypoint.removeWorker_signalNum (w : Waypoint) (id : Nat) :
    (w.removeWorker id).signalNum = w.signalNum := by
  simp only [Waypoint.removeWorker]
  by_cases h : id ∈ w.active <;>
    simp only [h, if_true, if_false] <;> split <;>
    simp [Waypoint.stop_signalNum]

theorem Waypoint.removeWorker_card_le (w : Waypoint) (id : Nat) :
    (w.removeWorker id).active.card ≤ w.active.card := by
  simp only [Waypoint.removeWorker]
  by_cases h : id ∈ w.active <;>
    simp only [h, if_true, if_false] <;> split <;>
    simp [Waypoint.stop_active, Finset.card_erase_le]

theorem Waypoint.finishWorker_capacity (w : Waypoint) (id e : Nat) :
    (w.finishWorker id e).capacity = w.capacity := by
  simp [Waypoint.finishWorker, Waypoint.removeWorker_capacity]

theorem Waypoint.finishWorker_idSeq (w : Waypoint) (id e : Nat) :
    (w.finishWorker id e).idSeq = w.idSeq := by
  simp [Waypoint.finishWorker, Waypoint.removeWorker_idSeq]

theorem Waypoint.finishWorker_issued (w : Waypoint) (id e : Nat) :
    (w.finishWorker id e).issued = w.issued := by
  simp [Waypoint.finishWorker, Waypoint.removeWorker_issued]

theorem Waypoint.finishWorker_numFinished (w : Waypoint) (id e : Nat) :
    (w.finishWorker id e).numFinished = w.numFinished + 1 := by
  simp [Waypoint.finishWorker, Waypoint.removeWorker_numFinished]

theorem Waypoint.finishWorker_activeTime (w : Waypoint) (id e : Nat) :
    (w.finishWorker id e).activeTime = w.activeTime + e := by
  simp [Waypoint.finishWorker, Waypoint.removeWorker_activeTime]

theorem Waypoint.finishWorker_signalNum (w : Waypoint) (id e : Nat) :
    (w.finishWorker id e).signalNum = w.signalNum + 1 := by
  simp [Waypoint.finishWorker, Waypoint.removeWorker_signalNum]

theorem Waypoint.finishWorker_card_le (w : Waypoint) (id e : Nat) :
    (w.finishWorker id e).active.card ≤ w.active.card := by
  have h := Waypoint.removeWorker_card_le
    { w with numFinished := w.numFinished + 1,
             activeTime := w.activeTime + e,
             signalNum := w.signalNum + 1 } id
  simpa [Waypoint.finishWorker] using h

theorem Waypoint.waitEnter_of_lt (w : Waypoint)
    (h : (w.active.card : Int) < w.capacity) :
    w.waitEnter =
      ({ w with idSeq := (w.idSeq + 1) % UINT64_MOD,
                issued := w.issued ++ [(w.idSeq + 1) % UINT64_MOD],
                active := insert ((w.idSeq + 1) % UINT64_MOD) w.active },
       .admitted { ID := (w.idSeq + 1) % UINT64_MOD, state := .Active }) := by
  have hc : ¬ ((w.active.card : Int) ≥ w.capacity) := not_le.mpr h
  simp [Waypoint.waitEnter, Waypoint.nextWorker, hc]

theorem Waypoint.waitEnter_of_ge (w : Waypoint)
    (h : (w.active.card : Int) ≥ w.capacity) :
    w.waitEnter =
      ({ w with idSeq := (w.idSeq + 1) % UINT64_MOD,
                issued := w.issued ++ [(w.idSeq + 1) % UINT64_MOD],
                numWaiting := w.numWaiting + 1,
                waiting := insert ((w.idSeq + 1) % UINT64_MOD) w.waiting },
       .blocked ((w.idSeq + 1) % UINT64_MOD)) := by
  simp [Waypoint.waitEnter, Waypoint.nextWorker, h]

theorem Waypoint.step_active_le (w w1 : Waypoint) (l : Label)
    (h : (w.active.card : Int) ≤ w.capacity)
    (hstep : w.stepFn l = some w1)
    (hres : ∀ n : Int, l = .resize n →
      (n < 0 ∨ w.closed = true ∨ (w.active.card : Int) ≤ n)) :
    (w1.active.card : Int) ≤ w1.capacity := by
  cases l with
  | waitAdmit =>
    by_cases hc : (w.active.card : Int) < w.capacity
    · rw [Waypoint.stepFn, Waypoint.waitEnter_of_lt w hc] at hstep
      cases hstep
      have h1 := Finset.card_insert_le ((w.idSeq + 1) % UINT64_MOD) w.active
      simp only
      omega
    · rw [Waypoint.stepFn, Waypoint.waitEnter_of_ge w (not_lt.mp hc)] at hstep
      cases hstep
  | waitBlock =>
    by_cases hc : (w.active.card : Int) < w.capacity
    · rw [Waypoint.stepFn, Waypoint.waitEnter_of_lt w hc] at hstep
      cases hstep
    · rw [Waypoint.stepFn, Waypoint.waitEnter_of_ge w (not_lt.mp hc)] at hstep
      cases hstep
      simpa using h
  | wakeAdmit id =>
    rw [Waypoint.stepFn] at hstep
    split at hstep
    · cases hstep
      rename_i hc
      have h1 := Finset.card_insert_le id w.active
      have h2 := hc.2
      simp only
      omega
    · cases hstep
  | wakeCancel id =>
    rw [Waypoint.stepFn] at hstep
    split at hstep
    · cases hstep
      simpa using h
    · cases hstep
  | finish id e =>
    rw [Waypoint.stepFn] at hstep
    split at hstep
    · cases hstep
      have h1 := Waypoint.finishWorker_card_le w id e
      have h2 := Waypoint.finishWorker_capacity w id e
      rw [h2]
      omega
    · cases hstep
  | resize n =>
    rw [Waypoint.stepFn] at hstep
    cases hstep
    rcases hres n rfl with hneg | hclosed | hle
    · simp [Waypoint.Resize, hneg]
      exact h
    · have : (n < 0 ∨ w.closed = true) := Or.inr hclosed
      simp only [Waypoint.Resize]
      rw [if_pos]
      · exact h
      · simpa using this
    · by_cases hcond : n < 0 ∨ w.closed = true
      · simp only [Waypoint.Resize]
        rw [if_pos (by simpa using hcond)]
        exact h
      · simp only [Waypoint.Resize]
        rw [if_neg (by simpa using hcond)]
        simpa using hle
  | close =>
    rw [Waypoint.stepFn] at hstep
    cases hstep
    rw [Waypoint.Done, Waypoint.stop_capacity, Waypoint.stop_active]
    simpa using h

theorem Waypoint.step_issued (w w1 : Waypoint) (l : Label)
    (hstep : w.stepFn l = some w1) :
    (w1.issued = w.issued ∧ w1.idSeq = w.idSeq) ∨
    (w1.issued = w.issued ++ [(w.idSeq + 1) % UINT64_MOD] ∧
     w1.idSeq = (w.idSeq + 1) % UINT64_MOD) := by
  cases l with
  | waitAdmit =>
    by_cases hc : (w.active.card : Int) < w.capacity
    · rw [Waypoint.stepFn, Waypoint.waitEnter_of_lt w hc] at hstep
      cases hstep
      exact Or.inr ⟨rfl, rfl⟩
    · rw [Waypoint.stepFn, Waypoint.waitEnter_of_ge w (not_lt.mp hc)] at hstep
      cases hstep
  | waitBlock =>
    by_cases hc : (w.active.card : Int) < w.capacity
    · rw [Waypoint.stepFn, Waypoint.waitEnter_of_lt w hc] at hstep
      cases hstep
    · rw [Waypoint.stepFn, Waypoint.waitEnter_of_ge w (not_lt.mp hc)] at hstep
      cases hstep
      exact Or.inr ⟨rfl, rfl⟩
  | wakeAdmit id =>
    rw [Waypoint.stepFn] at hstep
    split at hstep
    · cases hstep
      exact Or.inl ⟨rfl, rfl⟩
    · cases hstep
  | wakeCancel id =>
    rw [Waypoint.stepFn] at hstep
    split at hstep
    · cases hstep
      exact Or.inl ⟨rfl, rfl⟩
    · cases hstep
  | finish id e =>
    rw [Waypoint.stepFn] at hstep
    split at hstep
    · cases hstep
      exact Or.inl ⟨Waypoint.finishWorker_issued w id e,
                    Waypoint.finishWorker_idSeq w id e⟩
    · cases hstep
  | resize n =>
    rw [Waypoint.stepFn] at hstep
    cases hstep
    by_cases hcond : n < 0 ∨ w.closed = true
    · simp only [Waypoint.Resize]
      rw [if_pos (by simpa using hcond)]
      exact Or.inl ⟨rfl, rfl⟩
    · simp only [Waypoint.Resize]
      rw [if_neg (by simpa using hcond)]
      exact Or.inl ⟨rfl, rfl⟩
  | close =>
    rw [Waypoint.stepFn] at hstep
    cases hstep
    exact Or.inl ⟨Waypoint.stop_issued _, Waypoint.stop_idSeq _⟩

theorem Waypoint.runTrace_issued_mono (tr : List Label) :
    ∀ w s : Waypoint, w.runTrace tr = some s →
      ∃ t, s.issued = w.issued ++ t := by
  induction tr with
  | nil =>
    intro w s hr
    simp only [Waypoint.runTrace] at hr
    cases hr
    exact ⟨[], by simp⟩
  | cons l ls ih =>
    intro w s hr
    simp only [Waypoint.runTrace] at hr
    rcases hstep : w.stepFn l with _ | w1
    · rw [hstep] at hr; cases hr
    · rw [hstep] at hr
      rcases ih w1 s hr with ⟨t, ht⟩
      rcases Waypoint.step_issued w w1 l hstep with ⟨h1, _⟩ | ⟨h1, _⟩
      · exact ⟨t, by rw [ht, h1]⟩
      · exact ⟨[(w.idSeq + 1) % UINT64_MOD] ++ t, by
          rw [ht, h1, List.append_assoc]⟩

theorem range1_snoc (n : Nat) :
    List.range' 1 n ++ [n + 1] = List.range' 1 (n + 1) := by
  rw [List.range'_concat]
  simp [Nat.add_comm]

theorem Waypoint.runTrace_IdInv (tr : List Label) :
    ∀ w s : Waypoint, w.IdInv → w.runTrace tr = some s →
      s.issued.length < UINT64_MOD → s.IdInv := by
  induction tr with
  | nil =>
    intro w s hI hr _
    simp only [Waypoint.runTrace] at hr
    cases hr
    exact hI
  | cons l ls ih =>
    intro w s hI hr hlen
    simp only [Waypoint.runTrace] at hr
    rcases hstep : w.stepFn l with _ | w1
    · rw [hstep] at hr; cases hr
    · rw [hstep] at hr
      refine ih w1 s ?_ hr hlen
      rcases Waypoint.step_issued w w1 l hstep with ⟨h1, h2⟩ | ⟨h1, h2⟩
      · constructor
        · rw [h1]; exact hI.1
        · rw [h2, h1]; exact hI.2
      · obtain ⟨t, ht⟩ := Waypoint.runTrace_issued_mono ls w1 s hr
        have hlen1 : w1.issued.length ≤ s.issued.length := by
          rw [ht]; simp
        have hlenw1 : w1.issued.length = w.issued.length + 1 := by
          rw [h1]; simp
        have hlt : w.issued.length + 1 < UINT64_MOD := by omega
        have hmod : (w.idSeq + 1) % UINT64_MOD = w.issued.length + 1 := by
          rw [hI.2]; exact Nat.mod_eq_of_lt hlt
        have hiss : w1.issued = List.range' 1 (w.issued.length + 1) := by
          rw [h1, hmod]
          calc w.issued ++ [w.issued.length + 1]
              = List.range' 1 w.issued.length ++ [w.issued.length + 1] :=
                congrArg (fun xs => xs ++ [w.issued.length + 1]) hI.1
            _ = List.range' 1 (w.issued.length + 1) := range1_snoc _
        constructor
        · rw [hlenw1, hiss]
        · rw [h2, hmod, hlenw1]

theorem Waypoint.runTrace_active_le (tr : List Label) :
    ∀ w s : Waypoint, (w.active.card : Int) ≤ w.capacity →
      w.resizeSafe tr = true → w.runTrace tr = some s →
      (s.active.card : Int) ≤ s.capacity := by
  induction tr with
  | nil =>
    intro w s h _ hr
    simp only [Waypoint.runTrace] at hr
    cases hr
    exact h
  | cons l ls ih =>
    intro w s h hsafe hr
    simp only [Waypoint.runTrace] at hr
    rcases hstep : w.stepFn l with _ | w1
    · rw [hstep] at hr; cases hr
    · rw [hstep] at hr
      simp only [Waypoint.resizeSafe, hstep, Bool.and_eq_true] at hsafe
      refine ih w1 s (Waypoint.step_active_le w w1 l h hstep ?_) hsafe.2 hr
      intro n hn
      subst hn
      have h1 := hsafe.1
      simp only [Bool.or_eq_true, decide_eq_true_eq] at h1
      tauto

/- ------------------------------------------------------------------ -/
/- Claim theorems.                                                     -/
/- ------------------------------------------------------------------ -/

/-- C1: the claim says the completion channel returned by the Done
method of a Waypoint is never closed before the active count has
reached zero after closing was requested. In the code, Done sets the
closed flag and immediately calls `_stop`, which closes the channel as
soon as the closed flag is set, without consulting the active map: after
one admission (one Active worker) a single Done call leaves the channel
closed while the active count is still 1. The once-guard does hold
(closeNum is 1), but the channel closes early, contradicting the doc
comment of Done itself (waypoint.go lines 240 to 242). -/
theorem waypoint_done_closes_with_active_worker :
    ((Waypoint.new 1).runTrace [Label.waitAdmit, Label.close]).map
      (fun s => (s.doneChanClosed, s.active.card, s.closed, s.closeNum))
      = some (true, 1, true, 1) := by decide

/-- C2 counterexample: the claim says the active count never exceeds the
current capacity in any reachable state. Starting from capacity 1, one
admission followed by Resize(0) reaches a state with capacity 0 and one
active worker: active count 1 > capacity 0. -/
theorem active_exceeds_capacity_after_resize :
    ((Waypoint.new 1).runTrace [Label.waitAdmit, Label.resize 0]).map
      (fun s => (s.capacity, s.active.card)) = some (0, 1) := by decide

/-- C2 amended: for every initial capacity c ≥ 0 and every interleaving
of Wait, Done and Resize steps in which no effective Resize sets the
capacity below the then-current active count, every reachable state has
active count ≤ current capacity. (Admission itself never overshoots:
Wait admits only while active < capacity; only a shrinking Resize can
leave active above capacity, since it never preempts active workers.) -/
theorem active_le_capacity_of_resizeSafe (c : Int) (tr : List Label)
    (s : Waypoint) (hc : 0 ≤ c)
    (hsafe : (Waypoint.new c).resizeSafe tr = true)
    (hr : (Waypoint.new c).runTrace tr = some s) :
    (s.active.card : Int) ≤ s.capacity :=
  Waypoint.runTrace_active_le tr (Waypoint.new c) s
    (by simpa [Waypoint.new] using hc) hsafe hr

/-- C2 amended, witness at a concrete trace: admit, finish, then an
enlarging resize. -/
theorem active_le_capacity_of_resizeSafe_witness :
    ∃ s, (Waypoint.new 1).runTrace
        [Label.waitAdmit, Label.finish 1 0, Label.resize 5] = some s ∧
      (s.active.card : Int) ≤ s.capacity :=
  ⟨_, rfl, active_le_capacity_of_resizeSafe 1
    [Label.waitAdmit, Label.finish 1 0, Label.resize 5] _
    (by decide) (by decide) rfl⟩

/-- C3 counterexample: the claim says a Wait call canceled while blocked
leaves the Coordinator state, including its id sequence, unchanged. On a
Waypoint of capacity 0 (so the call blocks), a canceled Wait leaves
idSeq at 1 while it started at 0: `_next` runs, and so allocates an id,
before the call ever blocks. -/
theorem waitCanceled_advances_idSeq :
    ∃ r, (Waypoint.new 0).waitCanceled = some r ∧
      r.1.idSeq ≠ (Waypoint.new 0).idSeq :=
  ⟨_, rfl, by decide⟩

/-- C3 amended: a Wait call that blocks (entry sees active ≥ capacity)
and is then canceled returns no Worker together with the token's
cancellation reason, and leaves the active set, the waiting and finished
counts, the waiting set, the capacity and the closed flag unchanged, but
the id sequence has been advanced by one: the id allocated at entry is
abandoned, not returned to the pool. -/
theorem waitCanceled_spec (w : Waypoint)
    (hcap : w.capacity ≤ (w.active.card : Int))
    (hfresh : (w.idSeq + 1) % UINT64_MOD ∉ w.waiting) :
    ∃ w2, w.waitCanceled = some (w2, none, GoError.ctxCanceled) ∧
      w2.active = w.active ∧ w2.numWaiting = w.numWaiting ∧
      w2.numFinished = w.numFinished ∧ w2.capacity = w.capacity ∧
      w2.waiting = w.waiting ∧ w2.closed = w.closed ∧
      w2.idSeq = (w.idSeq + 1) % UINT64_MOD := by
  unfold Waypoint.waitCanceled
  rw [Waypoint.waitEnter_of_ge w hcap]
  simp only [Waypoint.stepFn]
  rw [if_pos]
  · refine ⟨_, rfl, rfl, ?_, rfl, rfl, ?_, rfl, rfl⟩
    · simp
    · simp [Finset.erase_insert hfresh]
  · simp

/-- C3 amended, witness on a capacity-0 Waypoint. -/
theorem waitCanceled_spec_witness :
    ∃ w2, (Waypoint.new 0).waitCanceled = some (w2, none, GoError.ctxCanceled) ∧
      w2.active = (Waypoint.new 0).active ∧
      w2.numWaiting = (Waypoint.new 0).numWaiting ∧
      w2.numFinished = (Waypoint.new 0).numFinished ∧
      w2.capacity = (Waypoint.new 0).capacity ∧
      w2.waiting = (Waypoint.new 0).waiting ∧
      w2.closed = (Waypoint.new 0).closed ∧
      w2.idSeq = ((Waypoint.new 0).idSeq + 1) % UINT64_MOD :=
  waitCanceled_spec (Waypoint.new 0) (by decide) (by decide)

/-- C4: the claim says Run on a Pipeline with zero stages returns the
no-stages error without panicking or corrupting the lock state. In the
code, `run` takes the lock with `defer p.Unlock()` and the no-stages
branch runs an explicit `p.Unlock()` before returning, so the deferred
unlock then unlocks an unlocked mutex: an unrecoverable Go run-time
error, before Run can hand `ErrNoStages` to the caller. No goroutine is
spawned (the outcome is not a group). -/
theorem run_noStages_double_unlock :
    Pipeline.runSetup pipelineNoStages { locked := false } =
      (pipelineNoStages, { locked := false },
       RunOutcome.fatal ("sync: unlock of unlocked mutex")) := by decide

/-- C5: the Recv helper returns the cancellation error when the context
is canceled before a value arrives; the zero value with stillOpen false
and no error once the channel is closed and drained; the received value
with stillOpen true and no error when the type assertion succeeds; and
the zero value with stillOpen true and no error when the type assertion
fails (the mismatch is silently swallowed). -/
theorem Recv_contract {α : Type} (cast : Dyn → Option α) (zeroVal : α) :
    Recv cast zeroVal .canceled = (zeroVal, false, some .ctxCanceled) ∧
    Recv cast zeroVal .chanClosed = (zeroVal, false, none) ∧
    (∀ v out, cast v = some out →
      Recv cast zeroVal (.value v) = (out, true, none)) ∧
    (∀ v, cast v = none →
      Recv cast zeroVal (.value v) = (zeroVal, true, none)) := by
  refine ⟨rfl, rfl, ?_, ?_⟩
  · intro v out h
    simp [Recv, h]
  · intro v h
    simp [Recv, h]

/-- C5 witness: an Int assertion that succeeds and one that fails. -/
theorem Recv_contract_witness :
    Recv dynToInt 0 (.value (.int 7)) = (7, true, none) ∧
    Recv dynToInt 0 (.value (.str ("boom"))) = (0, true, none) :=
  ⟨(Recv_contract dynToInt 0).2.2.1 (.int 7) 7 rfl,
   (Recv_contract dynToInt 0).2.2.2 (.str ("boom")) rfl⟩

/-- C6: on a non-closed Waypoint, Resize returns the exact previous
capacity, so Resize(v1) followed by Resize(v2) returns the original
capacity and then v1; and Resize on a closed Waypoint is rejected with
the sentinel -1 and leaves the whole state, in particular the capacity,
unchanged. -/
theorem Resize_roundtrip :
    (∀ (w : Waypoint) (v1 v2 : Int), w.closed = false → 0 ≤ v1 → 0 ≤ v2 →
       (w.Resize v1).2 = w.capacity ∧ ((w.Resize v1).1.Resize v2).2 = v1) ∧
    (∀ (w : Waypoint) (n : Int), w.closed = true → w.Resize n = (w, -1)) := by
  constructor
  · intro w v1 v2 hcl h1 h2
    have hv1 : ¬ v1 < 0 := not_lt.mpr h1
    have hv2 : ¬ v2 < 0 := not_lt.mpr h2
    constructor
    · simp [Waypoint.Resize, hcl, hv1]
    · simp [Waypoint.Resize, hcl, hv1, hv2]
  · intro w n hcl
    simp [Waypoint.Resize, hcl]

/-- C6 witness: a fresh Waypoint of capacity 5, resized to 7 then 2, and
a closed Waypoint rejecting a resize. -/
theorem Resize_roundtrip_witness :
    ((Waypoint.new 5).Resize 7).2 = (Waypoint.new 5).capacity ∧
    (((Waypoint.new 5).Resize 7).1.Resize 2).2 = 7 ∧
    (Waypoint.new 5).Done.Resize 3 = ((Waypoint.new 5).Done, -1) :=
  ⟨(Resize_roundtrip.1 (Waypoint.new 5) 7 2 rfl (by decide) (by decide)).1,
   (Resize_roundtrip.1 (Waypoint.new 5) 7 2 rfl (by decide) (by decide)).2,
   Resize_roundtrip.2 ((Waypoint.new 5).Done) 3 (by decide)⟩

/-- C7 counterexample: the claim says Resize on a Pipeline before Run
has created the stage's Coordinator surfaces an inconsistent-state
condition rather than returning a result with no error. On a pipeline
with one registered stage and a nil stage Coordinator (the state before
Run), Resize returns (-1, nil): the error component is nil, so the call
does return a no-error result. -/
theorem resize_before_run_no_error :
    Pipeline.ResizeStage pipelineBeforeRun ("s1") 3 =
      (pipelineBeforeRun, -1, none) := by decide

/-- C7 amended: for every Pipeline and registered stage name whose
Waypoint pointer is still nil (which is the case before Run), Resize
returns the sentinel previous-capacity -1 together with a nil error: the
inconsistent state is only detectable through the -1 sentinel inherited
from waypoint's nil-receiver Resize, never through the error result. -/
theorem resize_before_run_spec (p : Pipeline) (name : String) (newcap : Int)
    (ndx : Nat) (st : PStage) (hname : lookupIdx p.byname name = some ndx)
    (hst : p.stages[ndx]? = some st) (hnil : st.waypt = none) :
    p.ResizeStage name newcap = (p, -1, none) := by
  unfold Pipeline.ResizeStage
  rw [hname]
  simp only [hst, hnil]

/-- C7 amended, witness at the one-stage pipeline before Run. -/
theorem resize_before_run_spec_witness :
    Pipeline.ResizeStage pipelineBeforeRun ("s1") 7 =
      (pipelineBeforeRun, -1, none) :=
  resize_before_run_spec pipelineBeforeRun ("s1") 7 0
    { name := "s1", capacity := 5, waypt := none } rfl rfl rfl

/-- C8: along every trace of the Waypoint state machine started from a
fresh Waypoint, as long as fewer than 2^64 ids have been issued (no
uint64 wrap-around), the chronological list of Worker ids issued by
`_next` is strictly increasing and contains no duplicates; in
particular the ids carried by the Workers returned from successful Wait
calls never repeat. -/
theorem worker_ids_strictly_increasing (c : Int) (tr : List Label)
    (s : Waypoint) (hr : (Waypoint.new c).runTrace tr = some s)
    (hlen : s.issued.length < UINT64_MOD) :
    s.issued.Pairwise (· < ·) ∧ s.issued.Nodup := by
  have hinv : (Waypoint.new c).IdInv := by
    constructor <;> simp [Waypoint.new, Waypoint.IdInv]
  have h := Waypoint.runTrace_IdInv tr (Waypoint.new c) s hinv hr hlen
  rw [h.1]
  exact ⟨List.pairwise_lt_range' 1 _, List.nodup_range' 1 _⟩

/-- C8 witness: two admissions on a capacity-2 Waypoint. -/
theorem worker_ids_strictly_increasing_witness :
    ∃ s, (Waypoint.new 2).runTrace [Label.waitAdmit, Label.waitAdmit] = some s ∧
      s.issued.Pairwise (· < ·) ∧ s.issued.Nodup :=
  ⟨_, rfl, worker_ids_strictly_increasing 2 [Label.waitAdmit, Label.waitAdmit]
    _ rfl (by decide)⟩

/-- C9: when the active count is below capacity at entry, a Wait call
whose context is already canceled (the `true` argument) nevertheless
returns an Active Worker and a nil error: the entry path never consults
the context, whose only check sits inside the cond.Wait loop body, which
is skipped when the admission guard passes at once. -/
theorem wait_fast_path_ignores_cancellation (w : Waypoint)
    (h : (w.active.card : Int) < w.capacity) :
    w.WaitFast true =
      some ({ w with idSeq := (w.idSeq + 1) % UINT64_MOD,
                     issued := w.issued ++ [(w.idSeq + 1) % UINT64_MOD],
                     active := insert ((w.idSeq + 1) % UINT64_MOD) w.active },
            { ID := (w.idSeq + 1) % UINT64_MOD, state := .Active }, none) := by
  unfold Waypoint.WaitFast
  rw [Waypoint.waitEnter_of_lt w h]

/-- C9 witness: a fresh capacity-1 Waypoint with an already-canceled
context still admits a worker. -/
theorem wait_fast_path_ignores_cancellation_witness :
    (Waypoint.new 1).WaitFast true =
      some ({ Waypoint.new 1 with
                idSeq := ((Waypoint.new 1).idSeq + 1) % UINT64_MOD,
                issued := (Waypoint.new 1).issued ++
                  [((Waypoint.new 1).idSeq + 1) % UINT64_MOD],
                active := insert (((Waypoint.new 1).idSeq + 1) % UINT64_MOD)
                  (Waypoint.new 1).active },
            { ID := ((Waypoint.new 1).idSeq + 1) % UINT64_MOD,
              state := .Active }, none) :=
  wait_fast_path_ignores_cancellation (Waypoint.new 1) (by decide)

/-- C10: calling Done on a Worker handle a second time runs the whole
bookkeeping again: the finished count and the accumulated active time
grow again and another wakeup signal is issued, because nothing in the
Worker Done path checks the current state. Concretely, on a Waypoint
that ever admitted exactly one worker, two Done calls on its handle
drive numFinished to 2. -/
theorem worker_done_reentrant :
    (∀ (w : Waypoint) (wk : Worker) (e1 e2 : Nat),
       ((wk.Done w e1).1).state = WorkerState.Finished ∧
       ((wk.Done w e1).1.Done (wk.Done w e1).2 e2).2.numFinished
           = w.numFinished + 2 ∧
       ((wk.Done w e1).1.Done (wk.Done w e1).2 e2).2.activeTime
           = w.activeTime + e1 + e2 ∧
       ((wk.Done w e1).1.Done (wk.Done w e1).2 e2).2.signalNum
           = w.signalNum + 2) ∧
    (∃ s, (Waypoint.new 1).runTrace [Label.waitAdmit] = some s ∧
       s.issued.length = 1 ∧
       ((({ ID := 1, state := WorkerState.Active } : Worker).Done s 0).1.Done
          ((({ ID := 1, state := WorkerState.Active } : Worker).Done s 0).2)
          0).2.numFinished = 2) := by
  constructor
  · intro w wk e1 e2
    refine ⟨rfl, ?_, ?_, ?_⟩
    · simp only [Worker.Done]
      rw [Waypoint.finishWorker_numFinished, Waypoint.finishWorker_numFinished]
    · simp only [Worker.Done]
      rw [Waypoint.finishWorker_activeTime, Waypoint.finishWorker_activeTime]
    · simp only [Worker.Done]
      rw [Waypoint.finishWorker_signalNum, Waypoint.finishWorker_signalNum]
  · exact ⟨_, rfl, by decide, by decide⟩

